import Mathlib

/-!
Verification of the Remedy REST API wrapper (`bmc/remedy.py`).

The module is a single stateful session class.  We embed it shallowly:

* `Json` with an executable recursive-descent reader models the payloads and
  the behaviour of `response.json()` / `json.loads` (integer numerals only;
  no claim depends on fractional numbers).
* `Response` models a `requests` response: `Response.ok` is the library's
  definition, `status_code < 400`.  Header lookup is case-insensitive, as in
  `requests`' `CaseInsensitiveDict`.
* A transport-level failure (timeout, refused connection, DNS) is the other
  possible outcome of an HTTP call, so each operation takes an
  `Except TransportError Response` argument standing for the network's answer
  to the single request the operation would issue.
* `PyError` is the exception that propagates out of a method.  The three
  `Remedy*Exception` classes of the source are the client's own hierarchy;
  a `jsonDecode` or `transport` error is a foreign (library) exception.
* Python methods mutate `self`; each operation therefore returns its result,
  the post-state of the session, and the list of HTTP requests it issued
  (so that "no network request" is the empty list).
* Python truthiness of the optional arguments (`if not self.auth_token`,
  `if query`, `if limit`, `if fields`) is made explicit by the `*Truthy`
  helpers.
-/

namespace Remedy

def ENTRY_PATH : String := "/arsys/v1.0/entry/"
def SCHEMA_PATH : String := "/arsys/v1.0/fields/"
def LOGIN_PATH : String := "/jwt/login"
def LOGOUT_PATH : String := "/jwt/logout"
def REST_TIMEOUT : Nat := 60

/-- Structured (JSON-like) data: entry payloads, response bodies. -/
inductive Json where
  | null : Json
  | bool (b : Bool) : Json
  | num (n : Int) : Json
  | str (s : String) : Json
  | arr (elems : List Json) : Json
  | obj (members : List (String × Json)) : Json

/-- Drop leading JSON whitespace. -/
def skipWs : List Char → List Char
  | [] => []
  | c :: cs =>
    if c == ' ' || c == '\t' || c == '\n' || c == '\r' then skipWs cs
    else c :: cs

/-- Read a maximal run of decimal digits (most significant first). -/
def digitsPre : List Char → List Nat × List Char
  | [] => ([], [])
  | c :: cs =>
    if c.isDigit then
      let p := digitsPre cs
      ((c.toNat - '0'.toNat) :: p.1, p.2)
    else ([], c :: cs)

def natOfDigits (ds : List Nat) : Nat :=
  ds.foldl (fun acc d => acc * 10 + d) 0

/-- Read an integer JSON numeral. -/
def parseNumber (cs : List Char) : Option (Json × List Char) :=
  match cs with
  | '-' :: rest =>
    match digitsPre rest with
    | ([], _) => none
    | (ds, rem) => some (.num (-(Int.ofNat (natOfDigits ds))), rem)
  | _ =>
    match digitsPre cs with
    | ([], _) => none
    | (ds, rem) => some (.num (Int.ofNat (natOfDigits ds)), rem)

/-- Read the remainder of a JSON string after the opening quote. -/
def parseStringRest (cs : List Char) : Option (String × List Char) :=
  match cs with
  | [] => none
  | c :: cs1 =>
    if c == '"' then some ("", cs1)
    else if c == '\\' then
      match cs1 with
      | [] => none
      | e :: cs2 =>
        let d : Option Char :=
          if e == '"' then some '"'
          else if e == '\\' then some '\\'
          else if e == '/' then some '/'
          else if e == 'n' then some '\n'
          else if e == 't' then some '\t'
          else if e == 'r' then some '\r'
          else none
        match d with
        | none => none
        | some d =>
          match parseStringRest cs2 with
          | none => none
          | some (rest, rem) => some (String.mk (d :: rest.data), rem)
    else
      match parseStringRest cs1 with
      | none => none
      | some (rest, rem) => some (String.mk (c :: rest.data), rem)

mutual

/-- Read one JSON value (fuelled recursive descent). -/
def parseValue : Nat → List Char → Option (Json × List Char)
  | 0, _ => none
  | Nat.succ fuel, cs =>
    match skipWs cs with
    | [] => none
    | c :: rest =>
      if c == '"' then
        match parseStringRest rest with
        | none => none
        | some (s, rem) => some (.str s, rem)
      else if c == '-' || c.isDigit then parseNumber (c :: rest)
      else if c == 'n' then
        match rest with
        | 'u' :: 'l' :: 'l' :: rem => some (.null, rem)
        | _ => none
      else if c == 't' then
        match rest with
        | 'r' :: 'u' :: 'e' :: rem => some (.bool true, rem)
        | _ => none
      else if c == 'f' then
        match rest with
        | 'a' :: 'l' :: 's' :: 'e' :: rem => some (.bool false, rem)
        | _ => none
      else if c == '[' then
        match skipWs rest with
        | ']' :: rem => some (.arr [], rem)
        | cs2 =>
          match parseArrayItems fuel cs2 with
          | none => none
          | some (xs, rem) => some (.arr xs, rem)
      else if c == '\x7b' then
        match skipWs rest with
        | '\x7d' :: rem => some (.obj [], rem)
        | cs2 =>
          match parseObjectItems fuel cs2 with
          | none => none
          | some (ms, rem) => some (.obj ms, rem)
      else none

/-- Read the comma-separated items of a non-empty JSON array. -/
def parseArrayItems : Nat → List Char → Option (List Json × List Char)
  | 0, _ => none
  | Nat.succ fuel, cs =>
    match parseValue fuel cs with
    | none => none
    | some (j, rem) =>
      match skipWs rem with
      | ',' :: rem2 =>
        match parseArrayItems fuel rem2 with
        | none => none
        | some (xs, rem3) => some (j :: xs, rem3)
      | ']' :: rem2 => some ([j], rem2)
      | _ => none

/-- Read the comma-separated members of a non-empty JSON object. -/
def parseObjectItems : Nat → List Char → Option (List (String × Json) × List Char)
  | 0, _ => none
  | Nat.succ fuel, cs =>
    match skipWs cs with
    | '"' :: rest =>
      match parseStringRest rest with
      | none => none
      | some (k, rem) =>
        match skipWs rem with
        | ':' :: rem2 =>
          match parseValue fuel rem2 with
          | none => none
          | some (v, rem3) =>
            match skipWs rem3 with
            | ',' :: rem4 =>
              match parseObjectItems fuel rem4 with
              | none => none
              | some (ms, rem5) => some ((k, v) :: ms, rem5)
            | '\x7d' :: rem4 => some ([(k, v)], rem4)
            | _ => none
        | _ => none
    | _ => none

end

/-- Model of `json.loads` / `requests.Response.json`: `none` means a
`JSONDecodeError` is raised (in particular on the empty string). -/
def jsonParse (s : String) : Option Json :=
  match parseValue (s.length + 2) s.data with
  | none => none
  | some (j, rem) => if (skipWs rem).isEmpty then some j else none

/-- Transport-level failures a `requests` call can raise instead of
returning a response. -/
inductive TransportError where
  | timeout : TransportError
  | connectionRefused : TransportError
  | dnsFailure : TransportError
  | other (msg : String) : TransportError
deriving DecidableEq, Repr

/-- The parts of a `requests` response the wrapper reads. -/
structure Response where
  status_code : Nat
  reason : String
  text : String
  headers : List (String × String)
deriving DecidableEq, Repr

/-- `requests.Response.ok`: true exactly when `status_code < 400`. -/
def Response.ok (r : Response) : Bool :=
  decide (r.status_code < 400)

/-- ASCII lower-casing of one character. -/
def lowerChar (c : Char) : Char :=
  if 65 ≤ c.toNat && c.toNat ≤ 90 then Char.ofNat (c.toNat + 32) else c

/-- Case-insensitive header lookup (`requests` uses a case-insensitive
dictionary for response headers; header names are ASCII). -/
def headersGet (headers : List (String × String)) (key : String) : Option String :=
  match headers.find? (fun kv =>
      kv.fst.data.map lowerChar == key.data.map lowerChar) with
  | none => none
  | some kv => some kv.snd

/-- Python `x or ""` for an optional string. -/
def pyOrEmpty : Option String → String
  | none => ""
  | some v => if v == "" then "" else v

/-- The exception propagating out of a wrapper method.  The first three
constructors are the module's own `RemedyException` hierarchy; `jsonDecode`
and `transport` are library exceptions that the wrapper does not catch. -/
inductive PyError where
  | remedy (msg : String) : PyError
  | remedyLogin (msg : String) : PyError
  | remedyLogout (msg : String) : PyError
  | jsonDecode (msg : String) : PyError
  | transport (t : TransportError) : PyError
deriving DecidableEq, Repr

/-- Membership in the wrapper's own exception hierarchy
(`isinstance(e, RemedyException)`). -/
def PyError.isRemedyException : PyError → Bool
  | .remedy _ => true
  | .remedyLogin _ => true
  | .remedyLogout _ => true
  | .jsonDecode _ => false
  | .transport _ => false

/-- Python truthiness of an optional string (`None` and `""` are falsy). -/
def strTruthy : Option String → Bool
  | none => false
  | some s => s != ""

/-- Python truthiness of an optional integer (`None` and `0` are falsy). -/
def intTruthy : Option Int → Bool
  | none => false
  | some n => n != 0

/-- Python truthiness of an optional list (`None` and `[]` are falsy). -/
def listTruthy : Option (List String) → Bool
  | none => false
  | some l => !l.isEmpty

/-- One HTTP request as handed to the `requests` library. -/
inductive Method where
  | get : Method
  | post : Method
  | put : Method
deriving DecidableEq, Repr

structure Request where
  method : Method
  url : String
  headers : List (String × String)
  params : List (String × String)
  formData : List (String × String)
  jsonBody : Option Json
  timeout : Nat

/-- The session object: `remedy_base_url` and the nullable `auth_token`. -/
structure RemedySession where
  remedy_base_url : String
  auth_token : Option String

/-- `f"values({','.join(fields)})"` -/
def joinFields (fields : List String) : String :=
  "values(" ++ String.intercalate "," fields ++ ")"

/-- `RemedySession.__init__`: log in and store the token.  Returns either the
constructed session or the exception that escapes the constructor, together
with the requests issued. -/
def RemedySession.init (api_url username password : String)
    (http : Except TransportError Response) :
    Except PyError RemedySession × List Request :=
  let login_url := api_url ++ LOGIN_PATH
  let req : Request :=
    { method := .post, url := login_url, headers := [], params := [],
      formData := [("username", username), ("password", password)],
      jsonBody := none, timeout := REST_TIMEOUT }
  match http with
  | .error t => (.error (.transport t), [req])
  | .ok response =>
    if !response.ok then
      (.error (.remedyLogin ("Failed to login to Remedy server: HTTP "
        ++ toString response.status_code ++ " (" ++ response.reason ++ ")")), [req])
    else
      (.ok { remedy_base_url := api_url,
             auth_token := some ("AR-JWT " ++ response.text) }, [req])

/-- `RemedySession.logout`. -/
def RemedySession.logout (s : RemedySession)
    (http : Except TransportError Response) :
    Except PyError Unit × RemedySession × List Request :=
  if !strTruthy s.auth_token then
    (.error (.remedyLogout "No active login session; cannot logout."), s, [])
  else
    let req : Request :=
      { method := .post, url := s.remedy_base_url ++ LOGOUT_PATH,
        headers := [("Authorization", s.auth_token.getD "")], params := [],
        formData := [], jsonBody := none, timeout := REST_TIMEOUT }
    match http with
    | .error t => (.error (.transport t), s, [req])
    | .ok response =>
      if !response.ok then
        (.error (.remedyLogout ("Failed to log out of Helix ITSM server: ("
          ++ toString response.status_code ++ ") " ++ response.text ++ "\"")),
         s, [req])
      else
        (.ok (), { s with auth_token := none }, [req])

/-- `RemedySession.create_entry`. -/
def RemedySession.create_entry (s : RemedySession) (form : String)
    (field_values : Json) (fields : Option (List String))
    (http : Except TransportError Response) :
    Except PyError (String × Json) × RemedySession × List Request :=
  if !strTruthy s.auth_token then
    (.error (.remedy "Unable to create entry without a valid login session"),
     s, [])
  else
    let target_url := s.remedy_base_url ++ ENTRY_PATH ++ form
    let params :=
      if listTruthy fields then [("fields", joinFields (fields.getD []))] else []
    let req : Request :=
      { method := .post, url := target_url,
        headers := [("Authorization", s.auth_token.getD "")], params := params,
        formData := [], jsonBody := some field_values, timeout := REST_TIMEOUT }
    match http with
    | .error t => (.error (.transport t), s, [req])
    | .ok response =>
      if !response.ok then
        (.error (.remedy ("Failed to create entry: " ++ response.text)), s, [req])
      else
        let location := pyOrEmpty (headersGet response.headers "Location")
        match jsonParse response.text with
        | none => (.error (.jsonDecode "Expecting value"), s, [req])
        | some j => (.ok (location, j), s, [req])

/-- `RemedySession.modify_entry`. -/
def RemedySession.modify_entry (s : RemedySession) (form : String)
    (field_values : Json) (entry_id : String)
    (http : Except TransportError Response) :
    Except PyError Unit × RemedySession × List Request :=
  if !strTruthy s.auth_token then
    (.error (.remedy "Unable to modify entry without a valid login session"),
     s, [])
  else
    let target_url := s.remedy_base_url ++ ENTRY_PATH ++ form ++ "/" ++ entry_id
    let req : Request :=
      { method := .put, url := target_url,
        headers := [("Authorization", s.auth_token.getD "")], params := [],
        formData := [], jsonBody := some field_values, timeout := REST_TIMEOUT }
    match http with
    | .error t => (.error (.transport t), s, [req])
    | .ok response =>
      if response.ok then (.ok (), s, [req])
      else (.error (.remedy "Failed to modify the incident"), s, [req])

/-- `RemedySession.query_form`. -/
def RemedySession.query_form (s : RemedySession) (form : String)
    (query : Option String) (fields : Option (List String))
    (limit : Option Int) (http : Except TransportError Response) :
    Except PyError Json × RemedySession × List Request :=
  if !strTruthy s.auth_token then
    (.error (.remedy "Unable to get entry without a valid login session"), s, [])
  else
    let target_url := s.remedy_base_url ++ ENTRY_PATH ++ form
    let params :=
      (if strTruthy query then [("q", query.getD "")] else [])
      ++ (if intTruthy limit then [("limit", toString (limit.getD 0))] else [])
      ++ (if listTruthy fields then [("fields", joinFields (fields.getD []))] else [])
    let req : Request :=
      { method := .get, url := target_url,
        headers := [("Authorization", s.auth_token.getD "")], params := params,
        formData := [], jsonBody := none, timeout := REST_TIMEOUT }
    match http with
    | .error t => (.error (.transport t), s, [req])
    | .ok response =>
      if response.ok then
        match jsonParse response.text with
        | none => (.error (.jsonDecode "Expecting value"), s, [req])
        | some j => (.ok j, s, [req])
      else
        (.error (.remedy ("Error getting entry: " ++ response.text)), s, [req])

/-- `RemedySession.get_schema`. -/
def RemedySession.get_schema (s : RemedySession) (form : String)
    (http : Except TransportError Response) :
    Except PyError Json × RemedySession × List Request :=
  if !strTruthy s.auth_token then
    (.error (.remedy "Unable to get schema without a valid login session"), s, [])
  else
    let target_url := s.remedy_base_url ++ SCHEMA_PATH ++ form
    let params :=
      [("field_criteria", "NAME, DATATYPE, LIMIT, DISPLAY_INSTANCE, OPTIONS"),
       ("field_type", "DATA, ATTACH, ATTACHPOOL")]
    let req : Request :=
      { method := .get, url := target_url,
        headers := [("Authorization", s.auth_token.getD "")], params := params,
        formData := [], jsonBody := none, timeout := REST_TIMEOUT }
    match http with
    | .error t => (.error (.transport t), s, [req])
    | .ok response =>
      if response.ok then
        match jsonParse response.text with
        | none => (.error (.jsonDecode "Expecting value"), s, [req])
        | some j => (.ok j, s, [req])
      else
        (.error (.remedy ("Error getting form schema: " ++ response.text)),
         s, [req])

/-- `RemedySession.__exit__`: attempt logout when a token is held, then
`return None` (modelled as `.ok none`).  An exception raised by `logout`
propagates out of the method. -/
def RemedySession.exitMethod (s : RemedySession) (exctype : Option PyError)
    (logoutHttp : Except TransportError Response) :
    Except PyError (Option Bool) × RemedySession × List Request :=
  let _ := exctype
  if strTruthy s.auth_token then
    match s.logout logoutHttp with
    | (.error e, s2, reqs) => (.error e, s2, reqs)
    | (.ok _, s2, reqs) => (.ok none, s2, reqs)
  else
    (.ok none, s, [])

/-- Python truthiness of `__exit__`'s return value. -/
def retTruthy : Option Bool → Bool
  | none => false
  | some b => b

/-- Semantics of `with session: body`.  The body's outcome is given; then
`__exit__` runs.  An exception raised by `__exit__` propagates (replacing a
body exception); otherwise a body exception is suppressed exactly when
`__exit__`'s return value is truthy.  `.ok (some b)` is normal completion,
`.ok none` a suppressed body exception. -/
def withRemedySession {β : Type} (s : RemedySession)
    (bodyResult : Except PyError β)
    (logoutHttp : Except TransportError Response) :
    Except PyError (Option β) × RemedySession × List Request :=
  let exc : Option PyError :=
    match bodyResult with
    | .error e => some e
    | .ok _ => none
  match s.exitMethod exc logoutHttp with
  | (.error e2, s2, reqs) => (.error e2, s2, reqs)
  | (.ok ret, s2, reqs) =>
    match bodyResult with
    | .error e => if retTruthy ret then (.ok none, s2, reqs) else (.error e, s2, reqs)
    | .ok b => (.ok (some b), s2, reqs)

/-- Substring test used to state "the message contains the body text". -/
def strHasSubstr (hay needle : String) : Bool :=
  (List.range (hay.data.length + 1)).any
    (fun i => needle.data.isPrefixOf (hay.data.drop i))

/-! Concrete fixtures used by witnesses and counterexamples. -/

/-- A session whose token was cleared (state after logout). -/
def closedSession : RemedySession :=
  { remedy_base_url := "http://srv", auth_token := none }

/-- An authenticated session as produced by a successful login. -/
def openSession : RemedySession :=
  { remedy_base_url := "http://srv", auth_token := some "AR-JWT tok123" }

/-- A plain 200 response with an empty JSON object body. -/
def resp200 : Response :=
  { status_code := 200, reason := "OK", text := "\x7b\x7d", headers := [] }

/-- A 500 response with body text `oops`. -/
def resp500 : Response :=
  { status_code := 500, reason := "Internal Server Error", text := "oops",
    headers := [] }

/-! Helper lemmas shared by the claim theorems. -/

theorem create_entry_unauth (s : RemedySession) (form : String) (fv : Json)
    (fields : Option (List String)) (http : Except TransportError Response)
    (h : strTruthy s.auth_token = false) :
    s.create_entry form fv fields http =
      (.error (.remedy "Unable to create entry without a valid login session"),
       s, []) := by
  simp [RemedySession.create_entry, h]

theorem modify_entry_unauth (s : RemedySession) (form : String) (fv : Json)
    (entry_id : String) (http : Except TransportError Response)
    (h : strTruthy s.auth_token = false) :
    s.modify_entry form fv entry_id http =
      (.error (.remedy "Unable to modify entry without a valid login session"),
       s, []) := by
  simp [RemedySession.modify_entry, h]

theorem query_form_unauth (s : RemedySession) (form : String)
    (query : Option String) (fields : Option (List String)) (limit : Option Int)
    (http : Except TransportError Response)
    (h : strTruthy s.auth_token = false) :
    s.query_form form query fields limit http =
      (.error (.remedy "Unable to get entry without a valid login session"),
       s, []) := by
  simp [RemedySession.query_form, h]

theorem get_schema_unauth (s : RemedySession) (form : String)
    (http : Except TransportError Response)
    (h : strTruthy s.auth_token = false) :
    s.get_schema form http =
      (.error (.remedy "Unable to get schema without a valid login session"),
       s, []) := by
  simp [RemedySession.get_schema, h]

theorem logout_unauth (s : RemedySession) (http : Except TransportError Response)
    (h : strTruthy s.auth_token = false) :
    s.logout http =
      (.error (.remedyLogout "No active login session; cannot logout."),
       s, []) := by
  simp [RemedySession.logout, h]

/-- A successful logout came from the branch that clears the token. -/
theorem logout_ok_state (s : RemedySession) (http : Except TransportError Response)
    (h : (s.logout http).1 = .ok ()) :
    (s.logout http).2.1 = { s with auth_token := none } := by
  unfold RemedySession.logout at h ⊢
  by_cases htok : strTruthy s.auth_token
  · simp [htok] at h ⊢
    cases http with
    | error t => simp at h
    | ok r =>
      by_cases hok : r.ok
      · simp [hok]
      · simp [hok] at h
  · simp [htok] at h

/-! State-preservation lemmas: no data operation writes to `self`. -/

theorem create_entry_state (s : RemedySession) (form : String) (fv : Json)
    (fields : Option (List String)) (http : Except TransportError Response) :
    (s.create_entry form fv fields http).2.1 = s := by
  unfold RemedySession.create_entry
  by_cases htok : strTruthy s.auth_token
  · simp [htok]
    cases http with
    | error t => rfl
    | ok r =>
      by_cases hok : r.ok
      · simp [hok]
        cases jsonParse r.text <;> rfl
      · simp [hok]
  · simp [htok]

theorem modify_entry_state (s : RemedySession) (form : String) (fv : Json)
    (entry_id : String) (http : Except TransportError Response) :
    (s.modify_entry form fv entry_id http).2.1 = s := by
  unfold RemedySession.modify_entry
  by_cases htok : strTruthy s.auth_token
  · simp [htok]
    cases http with
    | error t => rfl
    | ok r =>
      by_cases hok : r.ok
      · simp [hok]
      · simp [hok]
  · simp [htok]

theorem query_form_state (s : RemedySession) (form : String)
    (query : Option String) (fields : Option (List String)) (limit : Option Int)
    (http : Except TransportError Response) :
    (s.query_form form query fields limit http).2.1 = s := by
  unfold RemedySession.query_form
  by_cases htok : strTruthy s.auth_token
  · simp [htok]
    cases http with
    | error t => rfl
    | ok r =>
      by_cases hok : r.ok
      · simp [hok]
        cases jsonParse r.text <;> rfl
      · simp [hok]
  · simp [htok]

theorem get_schema_state (s : RemedySession) (form : String)
    (http : Except TransportError Response) :
    (s.get_schema form http).2.1 = s := by
  unfold RemedySession.get_schema
  by_cases htok : strTruthy s.auth_token
  · simp [htok]
    cases http with
    | error t => rfl
    | ok r =>
      by_cases hok : r.ok
      · simp [hok]
        cases jsonParse r.text <;> rfl
      · simp [hok]
  · simp [htok]

/-- A logout that did not succeed leaves the session unchanged. -/
theorem logout_error_state (s : RemedySession)
    (http : Except TransportError Response) (e : PyError)
    (h : (s.logout http).1 = .error e) :
    (s.logout http).2.1 = s := by
  unfold RemedySession.logout at h ⊢
  by_cases htok : strTruthy s.auth_token
  · simp [htok] at h ⊢
    cases http with
    | error t => rfl
    | ok r =>
      by_cases hok : r.ok
      · simp [hok] at h
      · simp [hok]
  · simp [htok]

/-! Request-list characterisations of the authenticated operations. -/

theorem query_form_requests (s : RemedySession) (form : String)
    (query : Option String) (fields : Option (List String)) (limit : Option Int)
    (http : Except TransportError Response)
    (htok : strTruthy s.auth_token = true) :
    (s.query_form form query fields limit http).2.2 =
      [{ method := .get, url := s.remedy_base_url ++ ENTRY_PATH ++ form,
         headers := [("Authorization", s.auth_token.getD "")],
         params := (if strTruthy query then [("q", query.getD "")] else [])
           ++ (if intTruthy limit then [("limit", toString (limit.getD 0))] else [])
           ++ (if listTruthy fields then [("fields", joinFields (fields.getD []))] else []),
         formData := [], jsonBody := none, timeout := REST_TIMEOUT }] := by
  unfold RemedySession.query_form
  simp [htok]
  cases http with
  | error t => rfl
  | ok r =>
    by_cases hok : r.ok
    · simp [hok]
      cases jsonParse r.text <;> rfl
    · simp [hok]

theorem create_entry_requests (s : RemedySession) (form : String) (fv : Json)
    (fields : Option (List String)) (http : Except TransportError Response)
    (htok : strTruthy s.auth_token = true) :
    (s.create_entry form fv fields http).2.2 =
      [{ method := .post, url := s.remedy_base_url ++ ENTRY_PATH ++ form,
         headers := [("Authorization", s.auth_token.getD "")],
         params := if listTruthy fields then [("fields", joinFields (fields.getD []))] else [],
         formData := [], jsonBody := some fv, timeout := REST_TIMEOUT }] := by
  unfold RemedySession.create_entry
  simp [htok]
  cases http with
  | error t => rfl
  | ok r =>
    by_cases hok : r.ok
    · simp [hok]
      cases jsonParse r.text <;> rfl
    · simp [hok]

/-- An authenticated logout issues exactly one request. -/
theorem logout_requests (s : RemedySession)
    (http : Except TransportError Response)
    (htok : strTruthy s.auth_token = true) :
    (s.logout http).2.2 =
      [{ method := .post, url := s.remedy_base_url ++ LOGOUT_PATH,
         headers := [("Authorization", s.auth_token.getD "")], params := [],
         formData := [], jsonBody := none, timeout := REST_TIMEOUT }] := by
  unfold RemedySession.logout
  simp [htok]
  cases http with
  | error t => rfl
  | ok r =>
    by_cases hok : r.ok
    · simp [hok]
    · simp [hok]

/-! Claim theorems. -/

/-- C1: when the session holds no (truthy) authentication token, each of
`create_entry`, `modify_entry`, `query_form` and `get_schema` fails with the
not-authenticated `RemedyException` of its guard, issues zero network
requests, and leaves the session unchanged — whatever the network would have
answered. -/
theorem c1_unauthenticated_ops_fail_locally
    (s : RemedySession) (h : strTruthy s.auth_token = false)
    (form1 form2 form3 form4 : String) (fv1 fv2 : Json)
    (fields1 fields2 : Option (List String)) (entry_id : String)
    (query : Option String) (limit : Option Int)
    (http1 http2 http3 http4 : Except TransportError Response) :
    s.create_entry form1 fv1 fields1 http1 =
      (.error (.remedy "Unable to create entry without a valid login session"),
       s, [])
    ∧ s.modify_entry form2 fv2 entry_id http2 =
      (.error (.remedy "Unable to modify entry without a valid login session"),
       s, [])
    ∧ s.query_form form3 query fields2 limit http3 =
      (.error (.remedy "Unable to get entry without a valid login session"),
       s, [])
    ∧ s.get_schema form4 http4 =
      (.error (.remedy "Unable to get schema without a valid login session"),
       s, []) :=
  ⟨create_entry_unauth s form1 fv1 fields1 http1 h,
   modify_entry_unauth s form2 fv2 entry_id http2 h,
   query_form_unauth s form3 query fields2 limit http3 h,
   get_schema_unauth s form4 http4 h⟩

/-- C1 witness: the guard fires on a concrete token-less session. -/
theorem c1_witness :
    strTruthy closedSession.auth_token = false
    ∧ closedSession.create_entry "HPD:Help Desk" (.obj []) none (.ok resp200) =
      (.error (.remedy "Unable to create entry without a valid login session"),
       closedSession, [])
    ∧ closedSession.get_schema "HPD:Help Desk" (.ok resp200) =
      (.error (.remedy "Unable to get schema without a valid login session"),
       closedSession, []) := by
  have h := c1_unauthenticated_ops_fail_locally closedSession rfl
    "HPD:Help Desk" "F2" "F3" "HPD:Help Desk" (.obj []) (.obj []) none none
    "ID" none none (.ok resp200) (.ok resp200) (.ok resp200) (.ok resp200)
  exact ⟨rfl, h.1, h.2.2.2⟩

/-- C2 counterexample: a 304 login response is not 2xx, yet `requests.ok`
holds (`status < 400`), so construction succeeds and a token is stored. -/
theorem c2_counterexample :
    (RemedySession.init "http://srv" "user" "pw"
        (.ok { status_code := 304, reason := "Not Modified", text := "tok",
               headers := [] })).1 =
      .ok { remedy_base_url := "http://srv", auth_token := some "AR-JWT tok" }
    ∧ ¬(200 ≤ 304 ∧ 304 < 300) :=
  ⟨rfl, by decide⟩

/-- C2 (amended): for every login response with status ≥ 400 — the responses
`requests` deems not ok — construction fails with a `RemedyLoginException`
carrying the status code and reason phrase, and no session value (hence no
token) reaches the caller. -/
theorem c2_login_failure (api_url username password : String) (r : Response)
    (h : 400 ≤ r.status_code) :
    (RemedySession.init api_url username password (.ok r)).1 =
      .error (.remedyLogin ("Failed to login to Remedy server: HTTP "
        ++ toString r.status_code ++ " (" ++ r.reason ++ ")")) := by
  have hok : r.ok = false := by
    simp [Response.ok]
    omega
  simp [RemedySession.init, hok]

/-- C2 witness: a concrete 404 login response. -/
theorem c2_witness :
    400 ≤ (404 : Nat)
    ∧ (RemedySession.init "http://srv" "user" "pw"
        (.ok { status_code := 404, reason := "Not Found", text := "",
               headers := [] })).1 =
      .error (.remedyLogin "Failed to login to Remedy server: HTTP 404 (Not Found)") := by
  refine ⟨by decide, ?_⟩
  have h := c2_login_failure "http://srv" "user" "pw"
    { status_code := 404, reason := "Not Found", text := "", headers := [] }
    (by decide)
  simpa using h

/-- A 204 response, a successful logout answer. -/
def resp204 : Response :=
  { status_code := 204, reason := "No Content", text := "", headers := [] }

/-- C3: a successful logout clears the token; on the resulting session every
data operation fails with the not-authenticated `RemedyException` and a
second logout fails with `RemedyLogoutException`
("No active login session; cannot logout."), all without issuing a network
request and without changing the state — so the closed state is terminal. -/
theorem c3_logout_terminal (s : RemedySession)
    (http : Except TransportError Response)
    (h : (s.logout http).1 = .ok ())
    (form1 form2 form3 form4 : String) (fv1 fv2 : Json)
    (fields1 fields2 : Option (List String)) (entry_id : String)
    (query : Option String) (limit : Option Int)
    (http1 http2 http3 http4 http5 : Except TransportError Response) :
    (s.logout http).2.1.auth_token = none
    ∧ (s.logout http).2.1.create_entry form1 fv1 fields1 http1 =
      (.error (.remedy "Unable to create entry without a valid login session"),
       (s.logout http).2.1, [])
    ∧ (s.logout http).2.1.modify_entry form2 fv2 entry_id http2 =
      (.error (.remedy "Unable to modify entry without a valid login session"),
       (s.logout http).2.1, [])
    ∧ (s.logout http).2.1.query_form form3 query fields2 limit http3 =
      (.error (.remedy "Unable to get entry without a valid login session"),
       (s.logout http).2.1, [])
    ∧ (s.logout http).2.1.get_schema form4 http4 =
      (.error (.remedy "Unable to get schema without a valid login session"),
       (s.logout http).2.1, [])
    ∧ (s.logout http).2.1.logout http5 =
      (.error (.remedyLogout "No active login session; cannot logout."),
       (s.logout http).2.1, []) := by
  have hst := logout_ok_state s http h
  have htok : strTruthy (s.logout http).2.1.auth_token = false := by
    rw [hst]
    rfl
  refine ⟨by rw [hst], ?_, ?_, ?_, ?_, ?_⟩
  · exact create_entry_unauth _ _ _ _ _ htok
  · exact modify_entry_unauth _ _ _ _ _ htok
  · exact query_form_unauth _ _ _ _ _ _ htok
  · exact get_schema_unauth _ _ _ htok
  · exact logout_unauth _ _ htok

/-- C3 witness: a concrete successful logout, then a query and a second
logout on the closed session. -/
theorem c3_witness :
    (openSession.logout (.ok resp204)).1 = .ok ()
    ∧ (openSession.logout (.ok resp204)).2.1.auth_token = none
    ∧ (openSession.logout (.ok resp204)).2.1.query_form "HPD:Help Desk"
        none none none (.ok resp200) =
      (.error (.remedy "Unable to get entry without a valid login session"),
       (openSession.logout (.ok resp204)).2.1, [])
    ∧ (openSession.logout (.ok resp204)).2.1.logout (.ok resp200) =
      (.error (.remedyLogout "No active login session; cannot logout."),
       (openSession.logout (.ok resp204)).2.1, []) := by
  have h := c3_logout_terminal openSession (.ok resp204) rfl
    "F1" "F2" "HPD:Help Desk" "F4" (.obj []) (.obj []) none none "ID"
    none none (.ok resp200) (.ok resp200) (.ok resp200) (.ok resp200)
    (.ok resp200)
  exact ⟨rfl, h.1, h.2.2.2.1, h.2.2.2.2.2⟩

/-- C4 counterexample: on a 404 with body text containing
`\x7b"error":"not found"\x7d`, `modify_entry` raises the fixed message
"Failed to modify the incident", which does not contain the body text. -/
theorem c4_counterexample :
    (openSession.modify_entry "HPD:IncidentInterface" (.obj [])
        "INC000000000001"
        (.ok { status_code := 404, reason := "Not Found",
               text := "\x7b\"error\":\"not found\"\x7d", headers := [] })).1 =
      .error (.remedy "Failed to modify the incident")
    ∧ strHasSubstr "Failed to modify the incident"
        "\x7b\"error\":\"not found\"\x7d" = false :=
  ⟨rfl, rfl⟩

/-- C4 (amended): for every response with status ≥ 400, `modify_entry` fails
with a `RemedyException` carrying the fixed message
"Failed to modify the incident"; the response body text is only written to
the error log, not carried in the exception. -/
theorem c4_modify_failure (s : RemedySession) (form : String) (fv : Json)
    (entry_id : String) (r : Response)
    (htok : strTruthy s.auth_token = true) (h : 400 ≤ r.status_code) :
    (s.modify_entry form fv entry_id (.ok r)).1 =
      .error (.remedy "Failed to modify the incident") := by
  have hok : r.ok = false := by
    simp [Response.ok]
    omega
  simp [RemedySession.modify_entry, htok, hok]

/-- C4 witness: the 404 instance of the amended claim. -/
theorem c4_witness :
    strTruthy openSession.auth_token = true
    ∧ 400 ≤ (404 : Nat)
    ∧ (openSession.modify_entry "HPD:IncidentInterface" (.obj [])
        "INC000000000001"
        (.ok { status_code := 404, reason := "Not Found",
               text := "\x7b\"error\":\"not found\"\x7d", headers := [] })).1 =
      .error (.remedy "Failed to modify the incident") := by
  refine ⟨rfl, by decide, ?_⟩
  exact c4_modify_failure openSession "HPD:IncidentInterface" (.obj [])
    "INC000000000001"
    { status_code := 404, reason := "Not Found",
      text := "\x7b\"error\":\"not found\"\x7d", headers := [] }
    rfl (by decide)

/-- C5 counterexample: with an error in flight in the managed block and a
logout that answers 500, the logout failure is not discarded — it is the
error that propagates, and the original error is not the one the caller
sees. -/
theorem c5_counterexample :
    (withRemedySession openSession
        (.error (.remedy "boom") : Except PyError Json) (.ok resp500)).1 =
      .error (.remedyLogout
        "Failed to log out of Helix ITSM server: (500) oops\"")
    ∧ (withRemedySession openSession
        (.error (.remedy "boom") : Except PyError Json) (.ok resp500)).1 ≠
      .error (.remedy "boom") := by
  refine ⟨rfl, fun hc => ?_⟩
  rw [show (withRemedySession openSession
      (.error (.remedy "boom") : Except PyError Json) (.ok resp500)).1 =
    .error (.remedyLogout
      "Failed to log out of Helix ITSM server: (500) oops\"") from rfl] at hc
  exact PyError.noConfusion (Except.error.inj hc)

/-- C5 (amended): when an exception is in flight inside the managed block and
a token is held, `__exit__` still attempts the logout (exactly one request);
since `__exit__` returns `None`, a successful logout does not suppress the
original error, which propagates; but a failing logout raises out of
`__exit__`, and that logout failure — not the original error — is what
propagates. -/
theorem c5_exit_semantics {β : Type} (s : RemedySession) (e : PyError)
    (logoutHttp : Except TransportError Response)
    (htok : strTruthy s.auth_token = true) :
    (withRemedySession s (.error e : Except PyError β) logoutHttp).2.2 =
      (s.logout logoutHttp).2.2
    ∧ (s.logout logoutHttp).2.2.length = 1
    ∧ ((s.logout logoutHttp).1 = .ok () →
      (withRemedySession s (.error e : Except PyError β) logoutHttp).1 =
        .error e)
    ∧ (∀ e2, (s.logout logoutHttp).1 = .error e2 →
      (withRemedySession s (.error e : Except PyError β) logoutHttp).1 =
        .error e2) := by
  have hreq := logout_requests s logoutHttp htok
  unfold withRemedySession RemedySession.exitMethod
  simp only [htok, if_true]
  rcases hl : s.logout logoutHttp with ⟨res, s2, reqs⟩
  cases res with
  | error e2 =>
    refine ⟨rfl, ?_, ?_, ?_⟩
    · rw [hl] at hreq
      have hr : reqs = _ := hreq
      simp [hr]
    · intro hok
      simp at hok
    · intro e3 he3
      simp at he3
      simp [he3]
  | ok u =>
    refine ⟨rfl, ?_, ?_, ?_⟩
    · rw [hl] at hreq
      have hr : reqs = _ := hreq
      simp [hr]
    · intro hok
      simp [retTruthy]
    · intro e3 he3
      simp at he3

/-- C5 witness: with an error in flight and a logout that succeeds (204),
the original error is the one that propagates. -/
theorem c5_witness :
    strTruthy openSession.auth_token = true
    ∧ (openSession.logout (.ok resp204)).1 = .ok ()
    ∧ (withRemedySession openSession
        (.error (.remedy "boom") : Except PyError Json) (.ok resp204)).1 =
      .error (.remedy "boom") := by
  refine ⟨rfl, rfl, ?_⟩
  exact (c5_exit_semantics openSession (.remedy "boom") (.ok resp204)
    rfl).2.2.1 rfl

/-- C6: `limit=0` is falsy in Python, so `query_form` called with limit `0`
behaves exactly — same result, same state, same single request with the same
URL, headers and query parameters — as a call with no limit. -/
theorem c6_limit_zero_like_absent (s : RemedySession)
    (_htok : strTruthy s.auth_token = true) (form : String)
    (query : Option String) (fields : Option (List String))
    (http : Except TransportError Response) :
    s.query_form form query fields (some 0) http =
      s.query_form form query fields none http := by
  simp [RemedySession.query_form, intTruthy]

/-- C6 witness: a concrete authenticated query with limit `0`. -/
theorem c6_witness :
    strTruthy openSession.auth_token = true
    ∧ openSession.query_form "HPD:Help Desk" (some "1=1") (some ["Status"])
        (some 0) (.ok resp200) =
      openSession.query_form "HPD:Help Desk" (some "1=1") (some ["Status"])
        none (.ok resp200) := by
  refine ⟨rfl, ?_⟩
  exact c6_limit_zero_like_absent openSession rfl "HPD:Help Desk"
    (some "1=1") (some ["Status"]) (.ok resp200)

/-- The fields parameter that an authenticated `query_form` sends. -/
theorem query_form_fields_lookup (s : RemedySession) (form : String)
    (query : Option String) (fields : Option (List String)) (limit : Option Int)
    (http : Except TransportError Response)
    (htok : strTruthy s.auth_token = true) :
    ∀ rq ∈ (s.query_form form query fields limit http).2.2,
      rq.params.lookup "fields" =
        if listTruthy fields then some (joinFields (fields.getD [])) else none := by
  rw [query_form_requests s form query fields limit http htok]
  intro rq hrq
  simp only [List.mem_singleton] at hrq
  subst hrq
  by_cases hq : strTruthy query <;> by_cases hlim : intTruthy limit <;>
    by_cases hf : listTruthy fields <;>
    simp only [hq, hlim, hf, if_true, if_false] <;> rfl

/-- The fields parameter that an authenticated `create_entry` sends. -/
theorem create_entry_fields_lookup (s : RemedySession) (form : String)
    (fv : Json) (fields : Option (List String))
    (http : Except TransportError Response)
    (htok : strTruthy s.auth_token = true) :
    ∀ rq ∈ (s.create_entry form fv fields http).2.2,
      rq.params.lookup "fields" =
        if listTruthy fields then some (joinFields (fields.getD [])) else none := by
  rw [create_entry_requests s form fv fields http htok]
  intro rq hrq
  simp only [List.mem_singleton] at hrq
  subst hrq
  by_cases hf : listTruthy fields <;>
    simp only [hf, if_true, if_false] <;> rfl

/-- C7: with a non-empty field list, the one request of `query_form` /
`create_entry` carries a `fields` parameter whose value is exactly
`values(f1,...,fn)` with the names comma-joined in order; with `None` or the
empty list, no `fields` parameter is sent. -/
theorem c7_fields_param (s : RemedySession)
    (htok : strTruthy s.auth_token = true) (form : String) (f : String)
    (fs : List String) (fv : Json) (query : Option String) (limit : Option Int)
    (http1 http2 http3 http4 : Except TransportError Response) :
    ((s.query_form form query (some (f :: fs)) limit http1).2.2.length = 1
      ∧ ∀ rq ∈ (s.query_form form query (some (f :: fs)) limit http1).2.2,
        rq.params.lookup "fields" =
          some ("values(" ++ String.intercalate "," (f :: fs) ++ ")"))
    ∧ ((s.create_entry form fv (some (f :: fs)) http2).2.2.length = 1
      ∧ ∀ rq ∈ (s.create_entry form fv (some (f :: fs)) http2).2.2,
        rq.params.lookup "fields" =
          some ("values(" ++ String.intercalate "," (f :: fs) ++ ")"))
    ∧ (∀ rq ∈ (s.query_form form query none limit http3).2.2,
        rq.params.lookup "fields" = none)
    ∧ (∀ rq ∈ (s.query_form form query (some []) limit http3).2.2,
        rq.params.lookup "fields" = none)
    ∧ (∀ rq ∈ (s.create_entry form fv none http4).2.2,
        rq.params.lookup "fields" = none)
    ∧ (∀ rq ∈ (s.create_entry form fv (some []) http4).2.2,
        rq.params.lookup "fields" = none) := by
  refine ⟨⟨?_, ?_⟩, ⟨?_, ?_⟩, ?_, ?_, ?_, ?_⟩
  · rw [query_form_requests s form query (some (f :: fs)) limit http1 htok]
    rfl
  · intro rq hrq
    have h := query_form_fields_lookup s form query (some (f :: fs)) limit
      http1 htok rq hrq
    simpa [listTruthy, joinFields] using h
  · rw [create_entry_requests s form fv (some (f :: fs)) http2 htok]
    rfl
  · intro rq hrq
    have h := create_entry_fields_lookup s form fv (some (f :: fs)) http2
      htok rq hrq
    simpa [listTruthy, joinFields] using h
  · intro rq hrq
    have h := query_form_fields_lookup s form query none limit http3 htok rq hrq
    simpa [listTruthy] using h
  · intro rq hrq
    have h := query_form_fields_lookup s form query (some []) limit http3 htok
      rq hrq
    simpa [listTruthy] using h
  · intro rq hrq
    have h := create_entry_fields_lookup s form fv none http4 htok rq hrq
    simpa [listTruthy] using h
  · intro rq hrq
    have h := create_entry_fields_lookup s form fv (some []) http4 htok rq hrq
    simpa [listTruthy] using h

/-- C7 witness: `fields=["Status","Priority"]` produces exactly
`values(Status,Priority)`. -/
theorem c7_witness :
    strTruthy openSession.auth_token = true
    ∧ (∀ rq ∈ (openSession.query_form "HPD:Help Desk" none
        (some ["Status", "Priority"]) none (.ok resp200)).2.2,
      rq.params.lookup "fields" = some "values(Status,Priority)")
    ∧ (∀ rq ∈ (openSession.query_form "HPD:Help Desk" none none none
        (.ok resp200)).2.2,
      rq.params.lookup "fields" = none) := by
  have h := c7_fields_param openSession rfl "HPD:Help Desk" "Status"
    ["Priority"] (.obj []) none none (.ok resp200) (.ok resp200)
    (.ok resp200) (.ok resp200)
  exact ⟨rfl, fun rq hrq => h.1.2 rq hrq, fun rq hrq => h.2.2.1 rq hrq⟩

/-- C8 counterexample: a 200 response with an empty body makes `create_entry`
raise a JSON decode error — it does not return an empty object. -/
theorem c8_counterexample :
    jsonParse "" = none
    ∧ (openSession.create_entry "HPD:Help Desk" (.obj []) none
        (.ok { status_code := 200, reason := "OK", text := "",
               headers := [] })).1 =
      .error (.jsonDecode "Expecting value") :=
  ⟨rfl, rfl⟩

/-- C8 (amended): on every 2xx response whose body parses as JSON,
`create_entry` returns the pair of the `Location` header passed through
Python's `or ""` (so the empty string when the header is absent, and the
header's value when present) and the parsed body; an empty body does not
parse, so a decode error propagates instead. -/
theorem c8_create_success (s : RemedySession) (form : String) (fv : Json)
    (fields : Option (List String)) (r : Response) (j : Json)
    (htok : strTruthy s.auth_token = true)
    (h2xx : 200 ≤ r.status_code ∧ r.status_code < 300)
    (hj : jsonParse r.text = some j) :
    (s.create_entry form fv fields (.ok r)).1 =
      .ok (pyOrEmpty (headersGet r.headers "Location"), j)
    ∧ (headersGet r.headers "Location" = none →
      pyOrEmpty (headersGet r.headers "Location") = "")
    ∧ (∀ v, headersGet r.headers "Location" = some v →
      pyOrEmpty (headersGet r.headers "Location") =
        if v == "" then "" else v) := by
  have hok : r.ok = true := by
    simp [Response.ok]
    omega
  refine ⟨?_, ?_, ?_⟩
  · simp [RemedySession.create_entry, htok, hok, hj]
  · intro hn
    rw [hn]
    rfl
  · intro v hv
    rw [hv]
    rfl

/-- C8 witness: a 201 with a `Location` header and JSON body. -/
theorem c8_witness :
    jsonParse "\x7b\"id\":7\x7d" = some (.obj [("id", .num 7)])
    ∧ (openSession.create_entry "F" (.obj []) none
        (.ok { status_code := 201, reason := "Created",
               text := "\x7b\"id\":7\x7d",
               headers := [("Location", "http://srv/arsys/v1.0/entry/F/7")] })).1 =
      .ok ("http://srv/arsys/v1.0/entry/F/7", .obj [("id", .num 7)]) := by
  refine ⟨rfl, ?_⟩
  have h := c8_create_success openSession "F" (.obj []) none
    { status_code := 201, reason := "Created", text := "\x7b\"id\":7\x7d",
      headers := [("Location", "http://srv/arsys/v1.0/entry/F/7")] }
    (.obj [("id", .num 7)]) rfl (by decide) rfl
  exact h.1

/-- C9 counterexample: a timeout during `create_entry` surfaces as the raw
transport exception, which is not a member of the `RemedyException`
hierarchy — the wrapper wraps nothing. -/
theorem c9_counterexample :
    (openSession.create_entry "F" (.obj []) none (.error .timeout)).1 =
      .error (.transport .timeout)
    ∧ PyError.isRemedyException (.transport .timeout) = false :=
  ⟨rfl, rfl⟩

/-- C9 (amended): for every operation, a transport-level failure propagates
to the caller as the underlying transport exception itself — the cause is
preserved and it is distinguishable from the HTTP non-2xx variants, but it
is not wrapped in the client's `RemedyException` hierarchy. -/
theorem c9_transport_unwrapped (api_url username password : String)
    (s : RemedySession) (form : String) (fv : Json)
    (fields : Option (List String)) (entry_id : String)
    (query : Option String) (limit : Option Int) (t : TransportError)
    (htok : strTruthy s.auth_token = true) :
    (RemedySession.init api_url username password (.error t)).1 =
      .error (.transport t)
    ∧ (s.logout (.error t)).1 = .error (.transport t)
    ∧ (s.create_entry form fv fields (.error t)).1 = .error (.transport t)
    ∧ (s.modify_entry form fv entry_id (.error t)).1 = .error (.transport t)
    ∧ (s.query_form form query fields limit (.error t)).1 =
      .error (.transport t)
    ∧ (s.get_schema form (.error t)).1 = .error (.transport t)
    ∧ PyError.isRemedyException (.transport t) = false := by
  refine ⟨rfl, ?_, ?_, ?_, ?_, ?_, rfl⟩
  · simp [RemedySession.logout, htok]
  · simp [RemedySession.create_entry, htok]
  · simp [RemedySession.modify_entry, htok]
  · simp [RemedySession.query_form, htok]
  · simp [RemedySession.get_schema, htok]

/-- C9 witness: a concrete timeout against each operation. -/
theorem c9_witness :
    strTruthy openSession.auth_token = true
    ∧ (RemedySession.init "http://srv" "u" "p" (.error .timeout)).1 =
      .error (.transport .timeout)
    ∧ (openSession.query_form "F" none none none (.error .timeout)).1 =
      .error (.transport .timeout)
    ∧ PyError.isRemedyException (.transport .timeout) = false := by
  have h := c9_transport_unwrapped "http://srv" "u" "p" openSession "F"
    (.obj []) none "ID" none none .timeout rfl
  exact ⟨rfl, h.1, h.2.2.2.2.1, h.2.2.2.2.2.2⟩

/-- C10: no data operation writes to the session — whatever the outcome, the
post-state (base URL and token alike) is the pre-state — and a logout that
fails (locally or with a non-ok response, or by a transport error) also
leaves the session unchanged, so it remains authenticated and logout can be
retried. -/
theorem c10_ops_frame (s : RemedySession) (form1 form2 form3 form4 : String)
    (fv1 fv2 : Json) (fields1 fields2 : Option (List String))
    (entry_id : String) (query : Option String) (limit : Option Int)
    (http1 http2 http3 http4 http5 : Except TransportError Response) :
    (s.create_entry form1 fv1 fields1 http1).2.1 = s
    ∧ (s.modify_entry form2 fv2 entry_id http2).2.1 = s
    ∧ (s.query_form form3 query fields2 limit http3).2.1 = s
    ∧ (s.get_schema form4 http4).2.1 = s
    ∧ (∀ e, (s.logout http5).1 = .error e → (s.logout http5).2.1 = s) :=
  ⟨create_entry_state s form1 fv1 fields1 http1,
   modify_entry_state s form2 fv2 entry_id http2,
   query_form_state s form3 query fields2 limit http3,
   get_schema_state s form4 http4,
   fun e he => logout_error_state s http5 e he⟩

/-- C10 witness: a concrete failed logout leaves the session authenticated. -/
theorem c10_witness :
    (openSession.create_entry "F" (.obj []) none (.ok resp200)).2.1 =
      openSession
    ∧ (openSession.logout (.ok resp500)).1 =
      .error (.remedyLogout
        "Failed to log out of Helix ITSM server: (500) oops\"")
    ∧ (openSession.logout (.ok resp500)).2.1 = openSession := by
  have h := c10_ops_frame openSession "F" "F" "F" "F" (.obj []) (.obj [])
    none none "ID" none none (.ok resp200) (.ok resp200) (.ok resp200)
    (.ok resp200) (.ok resp500)
  exact ⟨h.1, rfl, h.2.2.2.2 _ rfl⟩

end Remedy
